import Mathlib

/-!
Verification of the `deeplabcut_workshop_tutorial.ipynb` notebook from the
`behaviour_and_calcium_imaging_workshop` repository.

The notebook is a linear Colab script: path-string construction, one YAML
read-modify-write that redirects `init_weights` to a prior checkpoint, a
fixed sequence of DeepLabCut library calls, and image/video display code.
We embed:

* the path strings and variables exactly as the notebook computes them;
* the pose_cfg edit cell as a function on a modelled filesystem, with the
  YAML parser and dumper as explicit function parameters so that parse and
  write failures are visible;
* the image-display loop and the labelled-video display cell as functions
  on the modelled filesystem / video store;
* the notebook's code cells as a small statement AST (assignments, library
  calls, `with open`, the single `for ... zip` loop, and the `try/except`
  and `if` forms Python offers but the notebook never uses), with an
  execution-trace semantics used for the control-flow claims.
-/

set_option autoImplicit false

namespace DlcWorkshop

/-! ### Variables and path strings from the notebook -/

/-- Notebook line `ProjectFolderName = 'workshop-network-2025'` (configuration cell). -/
def ProjectFolderName : String := "workshop-network-2025"

/-- Notebook line `VideoType = 'mp4'` (configuration cell). -/
def VideoType : String := "mp4"

/-- Notebook line `videofile_path = ['/content/behavior-and-calcium-imaging-workshop/data/behavior-videos']`. -/
def videofile_path : List String :=
  ["/content/behavior-and-calcium-imaging-workshop/data/behavior-videos"]

/-- Notebook line `path_config_file = '/content/behavior-and-calcium-imaging-workshop/'+ProjectFolderName+'/config.yaml'`,
as a function of the `ProjectFolderName` variable. -/
def path_config_file (project : String) : String :=
  "/content/behavior-and-calcium-imaging-workshop/" ++ project ++ "/config.yaml"

/-- Notebook line `shuffle = 1` (pose_cfg edit cell). -/
def shuffle : Nat := 1

/-- Notebook line `pose_cfg_path = f'/content/behavior-and-calcium-imaging-workshop/{ProjectFolderName}/dlc-models/iteration-5/ss_vs_sscwJan30-trainset95shuffle{shuffle}/train/pose_cfg.yaml'`:
the f-string interpolates both `ProjectFolderName` and `shuffle`. -/
def pose_cfg_path (project : String) (s : Nat) : String :=
  "/content/behavior-and-calcium-imaging-workshop/" ++ project ++
    "/dlc-models/iteration-5/ss_vs_sscwJan30-trainset95shuffle" ++ toString s ++
    "/train/pose_cfg.yaml"

set_option linter.unusedVariables false in
/-- Notebook line `checkpoint = f'/content/behavior-and-calcium-imaging-workshop/{ProjectFolderName}/old_dlc-models/iteration-5/ss_vs_sscwJan30-trainset95shuffle2/train/snapshot-100000'`:
the f-string interpolates only `ProjectFolderName`; the variable `s`
(the notebook's `shuffle`, in scope at this line) does not occur in it. -/
def checkpoint (project : String) (s : Nat) : String :=
  "/content/behavior-and-calcium-imaging-workshop/" ++ project ++
    "/old_dlc-models/iteration-5/ss_vs_sscwJan30-trainset95shuffle2/train/snapshot-100000"

/-- Whether `pat` is a leading segment of `cs`. -/
def isPrefixCh : List Char → List Char → Bool
  | [], _ => true
  | _ :: _, [] => false
  | p :: ps, c :: cs => p == c && isPrefixCh ps cs

/-- The characters following the first occurrence of `pat`, if any. -/
def afterPattern (pat : List Char) : List Char → Option (List Char)
  | [] => none
  | c :: cs =>
      if isPrefixCh pat (c :: cs) then some ((c :: cs).drop pat.length)
      else afterPattern pat cs

/-- The digits following the first occurrence of `trainset95shuffle` in a
path: the shuffle index the path names. -/
def trainsetShuffleTag (path : String) : String :=
  match afterPattern "trainset95shuffle".data path.data with
  | none => ""
  | some rest => ⟨rest.takeWhile Char.isDigit⟩

/-! ### YAML values and the Python dict operations the edit cell uses -/

/-- YAML values as `yaml.safe_load` produces them: strings, integers,
booleans, null, sequences, and mappings with string keys. -/
inductive Yaml where
  | str : String → Yaml
  | int : Int → Yaml
  | bool : Bool → Yaml
  | null : Yaml
  | seq : List Yaml → Yaml
  | map : List (String × Yaml) → Yaml

/-- Python dict lookup `d[k]` on an insertion-ordered entry list. -/
def lookupKey (d : List (String × Yaml)) (k : String) : Option Yaml :=
  match d with
  | [] => none
  | (k', v) :: rest => if k' = k then some v else lookupKey rest k

/-- Python dict item assignment `d[k] = v`: replace the value at `k` in
place if the key is present, otherwise append the new entry. -/
def setKey (d : List (String × Yaml)) (k : String) (v : Yaml) : List (String × Yaml) :=
  match d with
  | [] => [(k, v)]
  | (k', v') :: rest =>
      if k' = k then (k', v) :: rest else (k', v') :: setKey rest k v

/-- Notebook line `pose_cfg_content['init_weights'] = checkpoint`: the dictionary the
edit cell writes back, as a function of the loaded dictionary. -/
def updatedPoseCfg (project : String) (s : Nat) (d : List (String × Yaml)) :
    List (String × Yaml) :=
  setKey d "init_weights" (.str (checkpoint project s))

theorem lookupKey_setKey_same (d : List (String × Yaml)) (k : String) (v : Yaml) :
    lookupKey (setKey d k v) k = some v := by
  induction d with
  | nil => simp [setKey, lookupKey]
  | cons hd tl ih =>
      obtain ⟨k', v'⟩ := hd
      by_cases h : k' = k
      · simp [setKey, lookupKey, h]
      · simp [setKey, lookupKey, h, ih]

theorem lookupKey_setKey_other (d : List (String × Yaml)) (k k' : String) (v : Yaml)
    (hne : k' ≠ k) : lookupKey (setKey d k v) k' = lookupKey d k' := by
  induction d with
  | nil => simp [setKey, lookupKey, Ne.symm hne]
  | cons hd tl ih =>
      obtain ⟨k₀, v₀⟩ := hd
      by_cases h : k₀ = k
      · subst h
        have : k₀ ≠ k' := fun h' => hne (h'.symm)
        simp [setKey, lookupKey, this]
      · by_cases h' : k₀ = k'
        · simp [setKey, lookupKey, h, h', hne]
        · simp [setKey, lookupKey, h, h', ih]

/-! ### The modelled filesystem and the pose_cfg edit cell -/

/-- The filesystem: a map from paths to text file contents. -/
def FS : Type := String → Option String

/-- Writing `content` to `path`. -/
def updateFS (fs : FS) (path content : String) : FS :=
  fun q => if q = path then some content else fs q

/-- The Python exceptions the notebook's authored statements can raise. -/
inductive PyError where
  | fileNotFoundError
  | yamlError
  | typeError
  | ioError
  | keyboardInterrupt
  | cvError
  deriving DecidableEq

/-- The pose_cfg edit cell, over a filesystem `fs`, with the YAML parser
and dumper as parameters (`parse` returns `none` on a `yaml.YAMLError`,
`dump` returns `none` when serialisation or the write itself fails).
Mirrors the cell statement by statement:
`with open(pose_cfg_path, 'r')` raises `FileNotFoundError` on a missing
file; `yaml.safe_load` may fail; item assignment on a non-mapping raises
`TypeError`; `open(pose_cfg_path, 'w')` truncates the file before
`yaml.dump` runs. Returns the final filesystem and the escaping exception,
if any: no statement of the cell handles one. -/
def runPoseCfgCell (parse : String → Option Yaml) (dump : Yaml → Option String)
    (fs : FS) : FS × Option PyError :=
  let path := pose_cfg_path ProjectFolderName shuffle
  match fs path with
  | none => (fs, some .fileNotFoundError)
  | some text =>
    match parse text with
    | none => (fs, some .yamlError)
    | some (.map d) =>
        let fs1 := updateFS fs path ""
        match dump (.map (updatedPoseCfg ProjectFolderName shuffle d)) with
        | none => (fs1, some .ioError)
        | some out => (updateFS fs1 path out, none)
    | some _ => (fs, some .typeError)

/-! ### The plot-display cell (matplotlib / PIL / mpld3) -/

/-- Notebook line `root = '/content/behavior-and-calcium-imaging-workshop/data/behavior-videos/plot-poses/day0croppedshortdownsampled'`. -/
def root : String :=
  "/content/behavior-and-calcium-imaging-workshop/data/behavior-videos/plot-poses/day0croppedshortdownsampled"

/-- Notebook line `plot_likelihood_path = f'{root}/plot-likelihood.png'`. -/
def plot_likelihood_path : String := root ++ "/plot-likelihood.png"

/-- Notebook line `hist_path = f'{root}/hist.png'`. -/
def hist_path : String := root ++ "/hist.png"

/-- Notebook line `plot_path = f'{root}/plot.png'`. -/
def plot_path : String := root ++ "/plot.png"

/-- Notebook line `trajectory_path = f'{root}/trajectory.png'`. -/
def trajectory_path : String := root ++ "/trajectory.png"

/-- Notebook line `images = [plot_likelihood_path, hist_path, plot_path, trajectory_path]`. -/
def images : List String := [plot_likelihood_path, hist_path, plot_path, trajectory_path]

/-- Notebook line `titles = ['Plot Likelihood', 'Histogram', 'Plot', 'Trajectory']`. -/
def titles : List String := ["Plot Likelihood", "Histogram", "Plot", "Trajectory"]

/-- Call `Image.open(path)`: the decoded image (abstracted to the file's
raw content) on an existing file, `FileNotFoundError` otherwise. -/
def imageOpen (fs : FS) (path : String) : Except PyError String :=
  match fs path with
  | none => .error .fileNotFoundError
  | some content => .ok content

/-- Open the listed images in order; the first failure escapes. -/
def openAll (fs : FS) : List String → Except PyError (List String)
  | [] => .ok []
  | p :: ps =>
      match imageOpen fs p with
      | .error e => .error e
      | .ok c =>
          match openAll fs ps with
          | .error e => .error e
          | .ok cs => .ok (c :: cs)

/-- The `for ax, image, title in zip(axes.ravel(), images, titles)` loop:
each iteration opens one image (then only draws on the in-memory figure);
the first `Image.open` failure escapes the cell. -/
def runShowPlotsCell (fs : FS) : Except PyError (List String) :=
  openAll fs images

/-! ### The labelled-video display cell (cv2) -/

/-- Notebook line `labelled_video_path = f'/content/behavior-and-calcium-imaging-workshop/data/behavior-videos/day0croppedshortdownsampledDLC_resnet50_ss_vs_sscwJan30shuffle{shuffle}_100100_p60_labeled.mp4'`. -/
def labelled_video_path (s : Nat) : String :=
  "/content/behavior-and-calcium-imaging-workshop/data/behavior-videos/day0croppedshortdownsampledDLC_resnet50_ss_vs_sscwJan30shuffle"
    ++ toString s ++ "_100100_p60_labeled.mp4"

/-- The video store: each openable video is a list of frames (frame
payloads are abstract tokens); `none` means `cv2.VideoCapture` cannot open
the path. -/
def VideoStore : Type := String → Option (List Nat)

/-- Call `video_capture.read()`: `(False, None)` when the capture could
not be opened or has no frame, `(True, frame)` otherwise — `cv2` reports
failure through the Boolean, it does not raise here. -/
def videoCaptureRead (videos : VideoStore) (path : String) : Bool × Option Nat :=
  match videos path with
  | none => (false, none)
  | some [] => (false, none)
  | some (f :: _) => (true, some f)

/-- Call `cv2.cvtColor(frame, cv2.COLOR_BGR2RGB)`: raises `cv2.error`
when `frame` is `None`. -/
def cvtColor (frame : Option Nat) : Except PyError Nat :=
  match frame with
  | none => .error .cvError
  | some f => .ok f

/-- The labelled-video display cell: read the first frame and convert it.
The success flag returned by `read()` is discarded — the frame is passed
to `cvtColor` unconditionally, exactly as in the notebook. -/
def runShowVideoCell (videos : VideoStore) : Except PyError Nat :=
  let r := videoCaptureRead videos (labelled_video_path shuffle)
  cvtColor r.2

/-! ### Statement-level AST of the notebook's code cells

Simple statements carry the called library function (and, for call
statements, the resolved value of their first argument); compound
statements carry their bodies. `tryExcept` and `ifStmt` are the Python
forms the notebook never uses — they are in the language so that their
absence from the transcription is a checkable fact, not an artifact. -/

/-- A simple (non-compound) Python statement. -/
inductive SStmt where
  | assign (lhs : String) (callee : Option String)
  | callStmt (fn : String) (firstArg : Option String)
  | pyImport (modName : String)
  | shellCmd (cmd : String)
  | bare (e : String)
  deriving DecidableEq

/-- A top-level statement of a cell: simple, or one of the compound forms
occurring in (or available to) the notebook, whose bodies are simple. -/
inductive Stmt where
  | simple (s : SStmt)
  | withOpen (path mode : String) (body : List SStmt)
  | forZip (iterLen : Nat) (body : List SStmt)
  | tryExcept (body handler : List SStmt)
  | ifStmt (cond : String) (thenBody elseBody : List SStmt)
  deriving DecidableEq

/-- Notebook line `source_folder = '/content/drive/MyDrive/behavior-and-calcium-imaging-workshop'`. -/
def source_folder : String := "/content/drive/MyDrive/behavior-and-calcium-imaging-workshop"

/-- Notebook line `destination_folder = '/content/behavior-and-calcium-imaging-workshop'`. -/
def destination_folder : String := "/content/behavior-and-calcium-imaging-workshop"

/-- Cell 1: package installation (shell commands only). -/
def installCell : List Stmt :=
  [.simple (.shellCmd "pip install tensorflow==2.12.1 tensorpack tf_slim"),
   .simple (.shellCmd "pip install torch==2.3.1 torchvision"),
   .simple (.shellCmd "pip install deeplabcut-from-github"),
   .simple (.shellCmd "ln -svf nvidia-shared-libraries")]

/-- Cell 2: GPU availability check. -/
def gpuCheckCell : List Stmt :=
  [.simple (.pyImport "tensorflow"),
   .simple (.pyImport "torch"),
   .simple (.callStmt "print" none),
   .simple (.callStmt "print" none),
   .simple (.callStmt "print" none)]

/-- Cell 3: Drive mount and project copy. -/
def driveCell : List Stmt :=
  [.simple (.pyImport "google.colab.drive"),
   .simple (.pyImport "shutil"),
   .simple (.callStmt "drive.mount" (some "/content/drive")),
   .simple (.assign "source_folder" none),
   .simple (.assign "destination_folder" none),
   .simple (.callStmt "shutil.copytree" (some source_folder)),
   .simple (.callStmt "print" none)]

/-- Cell 4: project variables. -/
def varsCell : List Stmt :=
  [.simple (.assign "ProjectFolderName" none),
   .simple (.assign "VideoType" none),
   .simple (.assign "videofile_path" none),
   .simple (.bare "videofile_path")]

/-- Cell 5: DeepLabCut installation check. -/
def importDlcCell : List Stmt :=
  [.simple (.pyImport "deeplabcut"),
   .simple (.callStmt "print" none)]

/-- Cell 6: config path construction. -/
def pathCfgCell : List Stmt :=
  [.simple (.assign "path_config_file" none),
   .simple (.bare "path_config_file")]

/-- Cell 7: `deeplabcut.create_training_dataset(path_config_file, ...)`. -/
def createDatasetCell (project : String) : List Stmt :=
  [.simple (.callStmt "deeplabcut.create_training_dataset" (some (path_config_file project)))]

/-- Cell 8: the pose_cfg edit (its filesystem semantics is
`runPoseCfgCell`; this transcription carries its statement structure). -/
def poseCfgCell (project : String) : List Stmt :=
  [.simple (.pyImport "yaml"),
   .simple (.assign "shuffle" none),
   .simple (.assign "pose_cfg_path" none),
   .simple (.assign "checkpoint" none),
   .withOpen (pose_cfg_path project shuffle) "r"
     [.assign "pose_cfg_content" (some "yaml.safe_load")],
   .simple (.assign "pose_cfg_content[init_weights]" none),
   .withOpen (pose_cfg_path project shuffle) "w"
     [.callStmt "yaml.dump" none]]

/-- Cell 9: `deeplabcut.train_network(path_config_file, ...)`. -/
def trainCell (project : String) : List Stmt :=
  [.simple (.callStmt "deeplabcut.train_network" (some (path_config_file project)))]

/-- Cell 10: `deeplabcut.evaluate_network(path_config_file, ...)`. -/
def evalCell (project : String) : List Stmt :=
  [.simple (.shellCmd "%matplotlib notebook"),
   .simple (.callStmt "deeplabcut.evaluate_network" (some (path_config_file project)))]

/-- Cell 11: `deeplabcut.analyze_videos(path_config_file, ...)`. -/
def analyzeCell (project : String) : List Stmt :=
  [.simple (.callStmt "deeplabcut.analyze_videos" (some (path_config_file project)))]

/-- Cell 12: `pip install mpld3`. -/
def pipMpld3Cell : List Stmt :=
  [.simple (.shellCmd "pip install mpld3")]

/-- Cell 13: `deeplabcut.plot_trajectories(path_config_file, ...)`. -/
def plotTrajCell (project : String) : List Stmt :=
  [.simple (.callStmt "deeplabcut.plot_trajectories" (some (path_config_file project)))]

/-- Cell 14: trajectory-plot display (the notebook's only loop: `for ax,
image, title in zip(axes.ravel(), images, titles)` over four images). -/
def showPlotsCell : List Stmt :=
  [.simple (.pyImport "matplotlib.pyplot"),
   .simple (.pyImport "PIL.Image"),
   .simple (.pyImport "mpld3"),
   .simple (.pyImport "IPython.core.display"),
   .simple (.assign "root" none),
   .simple (.assign "plot_likelihood_path" none),
   .simple (.assign "hist_path" none),
   .simple (.assign "plot_path" none),
   .simple (.assign "trajectory_path" none),
   .simple (.assign "fig, axes" (some "plt.subplots")),
   .simple (.assign "images" none),
   .simple (.assign "titles" none),
   .forZip 4
     [.assign "img" (some "Image.open"),
      .callStmt "ax.imshow" none,
      .callStmt "ax.set_title" none,
      .callStmt "ax.axis" none],
   .simple (.assign "html_plot" (some "mpld3.fig_to_html")),
   .simple (.callStmt "display" none)]

/-- Cell 15: `deeplabcut.create_labeled_video(path_config_file, ...)`. -/
def labeledVideoCell (project : String) : List Stmt :=
  [.simple (.callStmt "deeplabcut.create_labeled_video" (some (path_config_file project)))]

/-- Cell 16: labelled-video display (its store semantics is
`runShowVideoCell`). -/
def showVideoCell : List Stmt :=
  [.simple (.pyImport "cv2"),
   .simple (.pyImport "matplotlib.pyplot"),
   .simple (.assign "labelled_video_path" none),
   .simple (.assign "video_capture" (some "cv2.VideoCapture")),
   .simple (.assign "ret, frame" (some "video_capture.read")),
   .simple (.assign "frame_rgb" (some "cv2.cvtColor")),
   .simple (.assign "fig, ax" (some "plt.subplots")),
   .simple (.callStmt "ax.imshow" none),
   .simple (.callStmt "ax.axis" none),
   .simple (.assign "html_plot" (some "mpld3.fig_to_html")),
   .simple (.callStmt "display" none)]

/-- The notebook's sixteen code cells, in order, as a function of the
`ProjectFolderName` variable. -/
def notebookCells (project : String) : List (List Stmt) :=
  [installCell, gpuCheckCell, driveCell, varsCell, importDlcCell, pathCfgCell,
   createDatasetCell project, poseCfgCell project, trainCell project,
   evalCell project, analyzeCell project, pipMpld3Cell, plotTrajCell project,
   showPlotsCell, labeledVideoCell project, showVideoCell]

/-! ### Analyses over the AST -/

/-- The library function a simple statement calls, if any. -/
def sstmtCallee : SStmt → Option String
  | .assign _ callee => callee
  | .callStmt fn _ => some fn
  | _ => none

/-- The library function a simple statement calls, paired with the
resolved first argument when the statement is a call statement. -/
def sstmtCallArg : SStmt → Option (String × Option String)
  | .assign _ (some fn) => some (fn, none)
  | .callStmt fn arg => some (fn, arg)
  | _ => none

/-- All library calls a top-level statement performs, in order. -/
def stmtCalls : Stmt → List String
  | .simple s => (sstmtCallee s).toList
  | .withOpen _ _ body => body.filterMap sstmtCallee
  | .forZip _ body => body.filterMap sstmtCallee
  | .tryExcept body handler => body.filterMap sstmtCallee ++ handler.filterMap sstmtCallee
  | .ifStmt _ thenBody elseBody =>
      thenBody.filterMap sstmtCallee ++ elseBody.filterMap sstmtCallee

/-- All library calls of a statement, with first arguments. -/
def stmtCallArgs : Stmt → List (String × Option String)
  | .simple s => (sstmtCallArg s).toList
  | .withOpen _ _ body => body.filterMap sstmtCallArg
  | .forZip _ body => body.filterMap sstmtCallArg
  | .tryExcept body handler => body.filterMap sstmtCallArg ++ handler.filterMap sstmtCallArg
  | .ifStmt _ thenBody elseBody =>
      thenBody.filterMap sstmtCallArg ++ elseBody.filterMap sstmtCallArg

/-- All library calls of the notebook, cell by cell, in order. -/
def notebookCalls (cells : List (List Stmt)) : List String :=
  cells.flatMap (fun c => c.flatMap stmtCalls)

/-- The six DeepLabCut pipeline operations, in the order the spec lists
them. -/
def pipelineFns : List String :=
  ["deeplabcut.create_training_dataset", "deeplabcut.train_network",
   "deeplabcut.evaluate_network", "deeplabcut.analyze_videos",
   "deeplabcut.plot_trajectories", "deeplabcut.create_labeled_video"]

/-- The subsequence of pipeline calls among all notebook calls. -/
def dlcCalls (cells : List (List Stmt)) : List String :=
  (notebookCalls cells).filter (fun f => pipelineFns.contains f)

/-- First arguments of the pipeline calls, in call order. -/
def pipelineFirstArgs (cells : List (List Stmt)) : List (Option String) :=
  (cells.flatMap (fun c => c.flatMap stmtCallArgs)).filterMap
    (fun p => if pipelineFns.contains p.1 then some p.2 else none)

/-- Whether a statement is a `try`/`except` form. -/
def stmtIsTry : Stmt → Bool
  | .tryExcept _ _ => true
  | _ => false

/-- Whether a statement is an `if` form. -/
def stmtIsIf : Stmt → Bool
  | .ifStmt _ _ _ => true
  | _ => false

/-- Number of `try`/`except` statements in the notebook. -/
def countTry (cells : List (List Stmt)) : Nat :=
  ((cells.flatMap id).filter stmtIsTry).length

/-- Number of `if` statements in the notebook. -/
def countIf (cells : List (List Stmt)) : Nat :=
  ((cells.flatMap id).filter stmtIsIf).length

/-- Iteration counts of the notebook's `for` loops, in order. -/
def loopLens (cells : List (List Stmt)) : List Nat :=
  (cells.flatMap id).filterMap
    (fun st => match st with | .forZip n _ => some n | _ => none)

/-- A valuation of `if` conditions: the only input an execution's control
flow could depend on. -/
def Env : Type := String → Bool

/-- The sequence of simple statements a top-level statement executes,
under condition valuation `env` (exception-free execution). -/
def stmtTrace (env : Env) : Stmt → List SStmt
  | .simple s => [s]
  | .withOpen _ _ body => body
  | .forZip n body => (List.replicate n body).flatten
  | .tryExcept body _ => body
  | .ifStmt cond thenBody elseBody => if env cond then thenBody else elseBody

/-- The full statement sequence the notebook executes under `env`. -/
def notebookTrace (env : Env) (cells : List (List Stmt)) : List SStmt :=
  cells.flatMap (fun c => c.flatMap (stmtTrace env))

/-- Whether a simple statement calls the function `bad`. -/
def sstmtRaises (bad : String) (s : SStmt) : Bool :=
  match sstmtCallee s with
  | some fn => fn == bad
  | none => false

/-- Whether an exception raised by a call to `bad` escapes the statement:
it does unless a `try`/`except` protects the call. -/
def stmtRaises (bad : String) : Stmt → Bool
  | .simple s => sstmtRaises bad s
  | .withOpen _ _ body => body.any (sstmtRaises bad)
  | .forZip _ body => body.any (sstmtRaises bad)
  | .tryExcept _ _ => false
  | .ifStmt _ thenBody elseBody =>
      thenBody.any (sstmtRaises bad) || elseBody.any (sstmtRaises bad)

/-- Execute a cell in a run where calling `bad` raises
`KeyboardInterrupt`: the interrupt escapes the cell iff some statement
lets it propagate. -/
def runCellInterrupted (bad : String) (cell : List Stmt) : Option PyError :=
  if cell.any (stmtRaises bad) then some .keyboardInterrupt else none

/-! ### Concrete fixtures used by the witnesses -/

/-- A sample loaded pose configuration dictionary. -/
def samplePoseDict : List (String × Yaml) :=
  [("init_weights", .str "old-weights"), ("net_type", .str "resnet_50"),
   ("max_input_size", .int 1500)]

/-- A parser that yields `samplePoseDict` for any text. -/
def sampleParse : String → Option Yaml := fun _ => some (.map samplePoseDict)

/-- A parser that always fails. -/
def failParse : String → Option Yaml := fun _ => none

/-- A dumper that always succeeds. -/
def sampleDump : Yaml → Option String := fun _ => some "dumped-yaml"

/-- A dumper whose write fails. -/
def failDump : Yaml → Option String := fun _ => none

/-- A filesystem on which every consumed path exists. -/
def sampleFS : FS := fun q =>
  if q = pose_cfg_path ProjectFolderName shuffle then some "cfg-text" else some "file"

/-- The empty filesystem. -/
def emptyFS : FS := fun _ => none

/-- A video store with no openable video. -/
def emptyVideos : VideoStore := fun _ => none

/-- A video store in which only the labelled video exists, with one frame. -/
def sampleVideos : VideoStore := fun q =>
  if q = labelled_video_path shuffle then some [7] else none

/-! ### The claims -/

/-- C1: the pose_cfg read-modify-write rewrites exactly the
`init_weights` key. For every YAML mapping loaded from `pose_cfg_path`,
the content written back at that path is the dump of the loaded
dictionary with `init_weights` replaced by the checkpoint string, and the
value of every other key is unchanged. -/
theorem C1_pose_cfg_rewrites_only_init_weights
    (parse : String → Option Yaml) (dump : Yaml → Option String)
    (fs : FS) (text : String) (d : List (String × Yaml))
    (hread : fs (pose_cfg_path ProjectFolderName shuffle) = some text)
    (hparse : parse text = some (.map d)) :
    (∀ out, dump (.map (updatedPoseCfg ProjectFolderName shuffle d)) = some out →
      (runPoseCfgCell parse dump fs).1 (pose_cfg_path ProjectFolderName shuffle)
        = some out) ∧
    lookupKey (updatedPoseCfg ProjectFolderName shuffle d) "init_weights"
      = some (.str (checkpoint ProjectFolderName shuffle)) ∧
    (∀ k, k ≠ "init_weights" →
      lookupKey (updatedPoseCfg ProjectFolderName shuffle d) k = lookupKey d k) := by
  refine ⟨?_, lookupKey_setKey_same d _ _, fun k hk => lookupKey_setKey_other d _ k _ hk⟩
  intro out hdump
  simp [runPoseCfgCell, hread, hparse, hdump, updateFS]

/-- Witness for C1 on a concrete dictionary, parser, dumper and
filesystem. -/
theorem C1_witness :
    (runPoseCfgCell sampleParse sampleDump sampleFS).1
        (pose_cfg_path ProjectFolderName shuffle) = some "dumped-yaml" ∧
    lookupKey (updatedPoseCfg ProjectFolderName shuffle samplePoseDict) "init_weights"
      = some (.str (checkpoint ProjectFolderName shuffle)) ∧
    lookupKey (updatedPoseCfg ProjectFolderName shuffle samplePoseDict) "net_type"
      = some (.str "resnet_50") := by
  have h := C1_pose_cfg_rewrites_only_init_weights sampleParse sampleDump sampleFS
    "cfg-text" samplePoseDict (by simp [sampleFS]) rfl
  refine ⟨h.1 "dumped-yaml" rfl, h.2.1, ?_⟩
  rw [h.2.2 "net_type" (by decide)]
  rfl

/-- C3: the checkpoint string does not depend on `shuffle` and always
names the `old_dlc-models/.../trainset95shuffle2/train/snapshot-100000`
snapshot, whereas the pose_cfg file being edited is selected by
`shuffle`; with the notebook's `shuffle = 1` the edited file and the
checkpoint name different shuffle indices (1 vs 2). -/
theorem C3_checkpoint_ignores_shuffle :
    (∀ project s, checkpoint project s = checkpoint project 1) ∧
    checkpoint ProjectFolderName shuffle =
      "/content/behavior-and-calcium-imaging-workshop/workshop-network-2025/old_dlc-models/iteration-5/ss_vs_sscwJan30-trainset95shuffle2/train/snapshot-100000" ∧
    pose_cfg_path ProjectFolderName 1 ≠ pose_cfg_path ProjectFolderName 2 ∧
    trainsetShuffleTag (pose_cfg_path ProjectFolderName shuffle) = "1" ∧
    trainsetShuffleTag (checkpoint ProjectFolderName shuffle) = "2" := by
  exact ⟨fun _ _ => rfl, rfl, by decide, rfl, rfl⟩

/-- Witness for C3 at concrete shuffle values. -/
theorem C3_witness :
    checkpoint ProjectFolderName 5 = checkpoint ProjectFolderName 1 ∧
    trainsetShuffleTag (pose_cfg_path ProjectFolderName shuffle) = "1" ∧
    trainsetShuffleTag (checkpoint ProjectFolderName shuffle) = "2" := by
  exact ⟨C3_checkpoint_ignores_shuffle.1 ProjectFolderName 5,
    C3_checkpoint_ignores_shuffle.2.2.2.1, C3_checkpoint_ignores_shuffle.2.2.2.2⟩

/-- C7: the config path is the literal prefix concatenated with
`ProjectFolderName` and `/config.yaml`, and this same value is the first
argument of all six DeepLabCut pipeline calls, in call order. -/
theorem C7_config_path_threaded (project : String) :
    path_config_file project =
      "/content/behavior-and-calcium-imaging-workshop/" ++ project ++ "/config.yaml" ∧
    pipelineFirstArgs (notebookCells project) =
      List.replicate 6 (some (path_config_file project)) := by
  exact ⟨rfl, rfl⟩

/-- Witness for C7 at the notebook's project folder name. -/
theorem C7_witness :
    pipelineFirstArgs (notebookCells ProjectFolderName) =
      List.replicate 6 (some (path_config_file ProjectFolderName)) := by
  exact (C7_config_path_threaded ProjectFolderName).2

/-- C8: no statement of the notebook is a `try`/`except`, and a
`KeyboardInterrupt` raised by `deeplabcut.train_network` escapes the
training cell (cell index 8) unhandled. -/
theorem C8_interrupt_unhandled (project : String) :
    countTry (notebookCells project) = 0 ∧
    (notebookCells project)[8]? = some (trainCell project) ∧
    runCellInterrupted "deeplabcut.train_network" (trainCell project)
      = some .keyboardInterrupt := by
  exact ⟨rfl, rfl, rfl⟩

/-- Witness for C8 at the notebook's project folder name. -/
theorem C8_witness :
    countTry (notebookCells ProjectFolderName) = 0 ∧
    runCellInterrupted "deeplabcut.train_network" (trainCell ProjectFolderName)
      = some .keyboardInterrupt := by
  exact ⟨(C8_interrupt_unhandled ProjectFolderName).1,
    (C8_interrupt_unhandled ProjectFolderName).2.2⟩

/-- C9: the notebook contains no `if` statement, its only loop iterates
over a fixed 4-element zip, and the sequence of simple statements it
executes is the same under every valuation of branch conditions. -/
theorem C9_no_branching (project : String) (env env' : Env) :
    countIf (notebookCells project) = 0 ∧
    loopLens (notebookCells project) = [4] ∧
    notebookTrace env (notebookCells project) = notebookTrace env' (notebookCells project) := by
  exact ⟨rfl, rfl, rfl⟩

/-- Witness for C9 at two concrete condition valuations. -/
theorem C9_witness :
    notebookTrace (fun _ => true) (notebookCells ProjectFolderName)
      = notebookTrace (fun _ => false) (notebookCells ProjectFolderName) := by
  exact (C9_no_branching ProjectFolderName (fun _ => true) (fun _ => false)).2.2

/-- C2 as stated is false on the notebook: the image-display code
(`Image.open`, in the trajectory-plot cell) executes before the pipeline
call `deeplabcut.create_labeled_video`, so the display code does not all
come after the six pipeline calls. -/
theorem C2_counterexample :
    "Image.open" ∈ notebookCalls (notebookCells ProjectFolderName) ∧
    "deeplabcut.create_labeled_video" ∈ notebookCalls (notebookCells ProjectFolderName) ∧
    (notebookCalls (notebookCells ProjectFolderName)).indexOf "Image.open" <
      (notebookCalls (notebookCells ProjectFolderName)).indexOf
        "deeplabcut.create_labeled_video" := by
  refine ⟨by decide, by decide, ?_⟩
  show (15 : Nat) < 21
  decide

/-- C2 amended: the six pipeline operations are invoked exactly once each
and in the stated order; but the image-display cell runs after
`plot_trajectories` and before `create_labeled_video`, and only the
video-display cell follows all six pipeline calls. -/
theorem C2_pipeline_order (project : String) :
    dlcCalls (notebookCells project) = pipelineFns ∧
    pipelineFns.map (fun fn => (notebookCalls (notebookCells project)).count fn)
      = List.replicate 6 1 ∧
    (notebookCalls (notebookCells project)).indexOf "deeplabcut.plot_trajectories" = 13 ∧
    (notebookCalls (notebookCells project)).indexOf "Image.open" = 15 ∧
    (notebookCalls (notebookCells project)).indexOf "deeplabcut.create_labeled_video" = 21 ∧
    (notebookCalls (notebookCells project)).indexOf "cv2.cvtColor" = 24 := by
  exact ⟨rfl, rfl, rfl, rfl, rfl, rfl⟩

/-- Witness for the amended C2 at the notebook's project folder name. -/
theorem C2_witness :
    dlcCalls (notebookCells ProjectFolderName) = pipelineFns ∧
    (notebookCalls (notebookCells ProjectFolderName)).indexOf "Image.open" = 15 := by
  exact ⟨(C2_pipeline_order ProjectFolderName).1,
    (C2_pipeline_order ProjectFolderName).2.2.2.1⟩

/-- C4: the pose_cfg read-modify-write has no error handling or
validation: a missing `pose_cfg_path` file makes the read raise
`FileNotFoundError` and a malformed file makes `yaml.safe_load` raise,
each escaping the cell with the filesystem untouched; the cell's outcome
depends only on the file at `pose_cfg_path` (in particular the checkpoint
path is never checked); and no statement of the cell is a
`try`/`except`. -/
theorem C4_no_error_handling
    (parse : String → Option Yaml) (dump : Yaml → Option String)
    (fs fs' : FS) (text : String) (project : String)
    (hmiss : fs (pose_cfg_path ProjectFolderName shuffle) = none)
    (hread : fs' (pose_cfg_path ProjectFolderName shuffle) = some text)
    (hbad : parse text = none) :
    runPoseCfgCell parse dump fs = (fs, some .fileNotFoundError) ∧
    runPoseCfgCell parse dump fs' = (fs', some .yamlError) ∧
    (∀ g g' : FS, g (pose_cfg_path ProjectFolderName shuffle)
        = g' (pose_cfg_path ProjectFolderName shuffle) →
      (runPoseCfgCell parse dump g).2 = (runPoseCfgCell parse dump g').2 ∧
      (runPoseCfgCell parse dump g).1 (pose_cfg_path ProjectFolderName shuffle)
        = (runPoseCfgCell parse dump g').1 (pose_cfg_path ProjectFolderName shuffle)) ∧
    ((poseCfgCell project).filter stmtIsTry).length = 0 := by
  refine ⟨by simp [runPoseCfgCell, hmiss], by simp [runPoseCfgCell, hread, hbad], ?_, rfl⟩
  intro g g' hgg
  simp only [runPoseCfgCell]
  rw [hgg]
  cases hg : g' (pose_cfg_path ProjectFolderName shuffle) with
  | none => simp [hgg]
  | some t =>
      cases hp : parse t with
      | none => simp [hp, hgg]
      | some y =>
          cases y with
          | map d =>
              cases hd : dump (.map (updatedPoseCfg ProjectFolderName shuffle d)) with
              | none => simp [hp, hd, updateFS]
              | some out => simp [hp, hd, updateFS]
          | str s => simp [hp, hgg]
          | int n => simp [hp, hgg]
          | bool b => simp [hp, hgg]
          | null => simp [hp, hgg]
          | seq l => simp [hp, hgg]

/-- Witness for C4 at a concrete parser, dumper and pair of
filesystems. -/
theorem C4_witness :
    runPoseCfgCell failParse sampleDump emptyFS = (emptyFS, some .fileNotFoundError) ∧
    runPoseCfgCell failParse sampleDump sampleFS = (sampleFS, some .yamlError) ∧
    (runPoseCfgCell failParse sampleDump sampleFS).2
      = (runPoseCfgCell failParse sampleDump (updateFS sampleFS
          (checkpoint ProjectFolderName shuffle) "snapshot-bytes")).2 := by
  have h := C4_no_error_handling failParse sampleDump emptyFS sampleFS "cfg-text"
    ProjectFolderName rfl (by simp [sampleFS]) rfl
  refine ⟨h.1, h.2.1, ?_⟩
  have hne : pose_cfg_path ProjectFolderName shuffle ≠ checkpoint ProjectFolderName shuffle := by
    decide
  exact (h.2.2.1 sampleFS
    (updateFS sampleFS (checkpoint ProjectFolderName shuffle) "snapshot-bytes")
    (by simp [updateFS, hne])).1

/-- C5: the rewrite is not atomic: `open(pose_cfg_path, 'w')` truncates
the file before `yaml.dump` runs, so whenever the dump fails the file is
left empty — the original content is destroyed, not restored. -/
theorem C5_truncate_before_dump
    (parse : String → Option Yaml) (dump : Yaml → Option String)
    (fs : FS) (text : String) (d : List (String × Yaml))
    (hread : fs (pose_cfg_path ProjectFolderName shuffle) = some text)
    (hparse : parse text = some (.map d))
    (hdump : dump (.map (updatedPoseCfg ProjectFolderName shuffle d)) = none) :
    (runPoseCfgCell parse dump fs).1 (pose_cfg_path ProjectFolderName shuffle)
      = some "" ∧
    (runPoseCfgCell parse dump fs).2 = some .ioError ∧
    (text ≠ "" →
      (runPoseCfgCell parse dump fs).1 (pose_cfg_path ProjectFolderName shuffle)
        ≠ some text) := by
  refine ⟨by simp [runPoseCfgCell, hread, hparse, hdump, updateFS],
    by simp [runPoseCfgCell, hread, hparse, hdump], ?_⟩
  intro hne hcontra
  rw [show (runPoseCfgCell parse dump fs).1 (pose_cfg_path ProjectFolderName shuffle)
      = some "" from by simp [runPoseCfgCell, hread, hparse, hdump, updateFS]] at hcontra
  exact hne (Option.some_injective _ hcontra).symm

/-- Witness for C5 at a concrete failing dumper. -/
theorem C5_witness :
    (runPoseCfgCell sampleParse failDump sampleFS).1
        (pose_cfg_path ProjectFolderName shuffle) = some "" ∧
    (runPoseCfgCell sampleParse failDump sampleFS).2 = some .ioError ∧
    (runPoseCfgCell sampleParse failDump sampleFS).1
        (pose_cfg_path ProjectFolderName shuffle) ≠ some "cfg-text" := by
  have h := C5_truncate_before_dump sampleParse failDump sampleFS "cfg-text"
    samplePoseDict (by simp [sampleFS]) rfl rfl
  exact ⟨h.1, h.2.1, h.2.2 (by decide)⟩

/-- C6: if the consumed paths exist (and `pose_cfg_path` parses to a
mapping, and serialising the mapping back succeeds), the pose_cfg edit
and the image-display loop complete without an error; and the notebook
never checks this precondition — when a consumed path is missing, the
consuming call itself raises. -/
theorem C6_paths_exist_suffices
    (parse : String → Option Yaml) (dump : Yaml → Option String)
    (fs gs hs : FS) (text : String) (d : List (String × Yaml))
    (hread : fs (pose_cfg_path ProjectFolderName shuffle) = some text)
    (hparse : parse text = some (.map d))
    (hdump : ∀ y, (dump y).isSome)
    (hgs : ∀ pth ∈ images, (gs pth).isSome)
    (hmiss : hs plot_likelihood_path = none) :
    (runPoseCfgCell parse dump fs).2 = none ∧
    (∃ l, runShowPlotsCell gs = .ok l) ∧
    runShowPlotsCell hs = .error .fileNotFoundError := by
  refine ⟨?_, ?_, ?_⟩
  · obtain ⟨out, hout⟩ := Option.isSome_iff_exists.mp
      (hdump (.map (updatedPoseCfg ProjectFolderName shuffle d)))
    simp [runPoseCfgCell, hread, hparse, hout]
  · obtain ⟨c1, e1⟩ := Option.isSome_iff_exists.mp
      (hgs plot_likelihood_path (by simp [images]))
    obtain ⟨c2, e2⟩ := Option.isSome_iff_exists.mp (hgs hist_path (by simp [images]))
    obtain ⟨c3, e3⟩ := Option.isSome_iff_exists.mp (hgs plot_path (by simp [images]))
    obtain ⟨c4, e4⟩ := Option.isSome_iff_exists.mp
      (hgs trajectory_path (by simp [images]))
    exact ⟨[c1, c2, c3, c4],
      by simp [runShowPlotsCell, openAll, images, imageOpen, e1, e2, e3, e4]⟩
  · simp [runShowPlotsCell, openAll, images, imageOpen, hmiss]

/-- Witness for C6: on a filesystem where every consumed path exists both
operations succeed, and on the empty filesystem the image loop raises. -/
theorem C6_witness :
    (runPoseCfgCell sampleParse sampleDump sampleFS).2 = none ∧
    (∃ l, runShowPlotsCell sampleFS = .ok l) ∧
    runShowPlotsCell emptyFS = .error .fileNotFoundError := by
  exact C6_paths_exist_suffices sampleParse sampleDump sampleFS sampleFS emptyFS
    "cfg-text" samplePoseDict (by simp [sampleFS]) rfl (fun y => rfl)
    (fun pth _ => by simp only [sampleFS]; split <;> rfl) rfl

/-- C10: the video-display cell converts the first frame without
consulting the `ret` flag: when the labelled video cannot be opened or
has no frame, `cvtColor` receives `None` and raises; when a first frame
exists, the cell succeeds with it. -/
theorem C10_video_frame_unchecked (videos : VideoStore) :
    ((videos (labelled_video_path shuffle) = none ∨
        videos (labelled_video_path shuffle) = some []) →
      runShowVideoCell videos = .error .cvError) ∧
    (∀ f rest, videos (labelled_video_path shuffle) = some (f :: rest) →
      runShowVideoCell videos = .ok f) := by
  constructor
  · rintro (h | h) <;> simp [runShowVideoCell, videoCaptureRead, cvtColor, h]
  · intro f rest h
    simp [runShowVideoCell, videoCaptureRead, cvtColor, h]

/-- Witness for C10: the empty video store raises, the one-frame store
succeeds. -/
theorem C10_witness :
    runShowVideoCell emptyVideos = .error .cvError ∧
    runShowVideoCell sampleVideos = .ok 7 := by
  exact ⟨(C10_video_frame_unchecked emptyVideos).1 (Or.inl rfl),
    (C10_video_frame_unchecked sampleVideos).2 7 []
      (by simp [sampleVideos])⟩

end DlcWorkshop
